import Mathlib

/-!
Shallow embedding of the ingest-classify-log pipeline of `app.py`
(IgniteLogic2 dashboard): the MQTT `_on_message` callback and the
`process_queue` drain, with the session state (`logs`, `last`,
`last_status`), the publisher client, the scikit-learn model and
the CSV mirror modelled explicitly.

Conventions of the embedding:
* Python floats are modelled by `FVal` (`nan` or an exact rational);
  `np.nan` is the `nan` constructor.
* Decoded JSON field values are `JVal` (number, string or null);
  a decoded JSON object is an association list `List (String × JVal)`.
* A Python exception that escapes `process_queue` is the `.raised`
  outcome; caught exceptions are handled inside the definitions, and
  the exception message is a `String`.
* `float`/`int` string parsing covers sign, digits and a decimal
  point (and `"nan"`); exotic literals (exponents, infinities,
  whitespace) are not modelled, and no claim depends on them.
* The scikit-learn model and the MQTT publish call are external
  effects, modelled as function parameters in `Ctx`; the CSV file on
  disk is the `csv` field of the state, and the disposition of a
  write attempt is the `csvOk` argument of `process_queue`.
-/

/-- A decoded JSON field value (number, string or null). -/
inductive JVal where
  | num (q : ℚ)
  | str (s : String)
  | null
deriving DecidableEq, Repr

/-- A Python float: NaN or an exact (finite) value. -/
inductive FVal where
  | nan
  | num (q : ℚ)
deriving DecidableEq, Repr

/-- `np.isnan` on an `FVal`. -/
def FVal.isNan : FVal → Bool
  | .nan => true
  | .num _ => false

/-- Value of a nonempty list of decimal digit characters. -/
def digitsFold (cs : List Char) : ℕ :=
  cs.foldl (fun n c => 10 * n + (c.toNat - 48)) 0

/-- Parse a nonempty all-digit character list as a natural number. -/
def parseNatDigits (cs : List Char) : Option ℕ :=
  if cs.isEmpty then none
  else if cs.all Char.isDigit then some (digitsFold cs) else none

/-- Parse an unsigned decimal literal (`"12"`, `"12.5"`, `"12."`, `".5"`). -/
def parseDecimalAbs (cs : List Char) : Option ℚ :=
  let ip := cs.takeWhile (fun c => c ≠ '.')
  match cs.dropWhile (fun c => c ≠ '.') with
  | [] => (parseNatDigits ip).map (fun n => (n : ℚ))
  | _ :: fp =>
    if ip.all Char.isDigit && fp.all Char.isDigit && !(ip.isEmpty && fp.isEmpty) then
      some ((digitsFold ip : ℚ) + (digitsFold fp : ℚ) / ((10 : ℚ) ^ fp.length))
    else none

/-- Python `float(s)` on a string: `some` on success, `none` when a
`ValueError` would be raised. -/
def pyFloatOfString (s : String) : Option FVal :=
  if s = "nan" || s = "NaN" then some .nan
  else
    match s.data with
    | '-' :: rest => (parseDecimalAbs rest).map (fun q => .num (-q))
    | '+' :: rest => (parseDecimalAbs rest).map .num
    | cs => (parseDecimalAbs cs).map .num

/-- Python `int(s)` on a string: `some` on success, `none` when a
`ValueError` would be raised (note `int("12.5")` raises). -/
def pyIntOfString (s : String) : Option ℤ :=
  match s.data with
  | '-' :: rest => (parseNatDigits rest).map (fun n => -(n : ℤ))
  | '+' :: rest => (parseNatDigits rest).map (fun n => (n : ℤ))
  | cs => (parseNatDigits cs).map (fun n => (n : ℤ))

/-- Python `int` applied to a float value: truncation toward zero. -/
def pyTrunc (q : ℚ) : ℤ :=
  if q < 0 then -⌊-q⌋ else ⌊q⌋

/-- Stand-in for Python `str` of a numeric prediction value. -/
def pyStrNum (q : ℚ) : String := toString q

/-- `float(d.get(k, np.nan))` — app.py lines 176-178.  A missing key
defaults to `np.nan` (and `float(nan) = nan`); a present numeric value
is kept; a string is parsed or raises `ValueError`; `null` raises
`TypeError`. -/
def getFloat (d : List (String × JVal)) (k : String) : Except String FVal :=
  match d.lookup k with
  | none => .ok .nan
  | some (.num q) => .ok (.num q)
  | some (.str s) =>
    match pyFloatOfString s with
    | some v => .ok v
    | none => .error ("could not convert string to float: " ++ s)
  | some .null => .error "float() argument must be a string or a real number, not NoneType"

/-- `int(d.get(k, np.nan))` — app.py line 179.  A missing key defaults
to `np.nan`, and `int(nan)` raises `ValueError`; a numeric value is
truncated toward zero; a string must be an integer literal; `null`
raises `TypeError`. -/
def getInt (d : List (String × JVal)) (k : String) : Except String ℤ :=
  match d.lookup k with
  | none => .error "cannot convert float NaN to integer"
  | some (.num q) => .ok (pyTrunc q)
  | some (.str s) =>
    match pyIntOfString s with
    | some n => .ok n
    | none => .error ("invalid literal for int() with base 10: " ++ s)
  | some .null => .error "int() argument must be a string or a number, not NoneType"

/-- One row of the History Log (`row` dict of app.py lines 182-191,
completed by lines 230/232/237/239).  The formatted local-time string
of line 183 is represented by the raw capture instant `ts`. -/
structure Row where
  ts : ℚ
  suhu : FVal
  lembap : FVal
  light : FVal
  rawLight : ℤ
  status_esp : JVal
  prediksi_server : String
  perintah_terkirim : String
  prediksi_server_raw : String
deriving DecidableEq, Repr

/-- One row of the CSV mirror: the projection of a `Row` to the columns
`['ts', 'suhu', 'lembap', 'light', 'rawLight', 'prediksi_server']`
(app.py line 257). -/
structure CsvRow where
  ts : ℚ
  suhu : FVal
  lembap : FVal
  light : FVal
  rawLight : ℤ
  prediksi_server : String
deriving DecidableEq, Repr

/-- The column projection of app.py line 257. -/
def Row.toCsv (r : Row) : CsvRow :=
  { ts := r.ts, suhu := r.suhu, lembap := r.lembap, light := r.light,
    rawLight := r.rawLight, prediksi_server := r.prediksi_server }

/-- External collaborators of `process_queue`: the loaded scikit-learn
model (`st.session_state.ml_model`, `None` or a predict function on the
feature vector `[suhu, lembap, light]`), and the publisher client
(`pub_client` truthiness plus the behaviour of `publish`, which may
raise). -/
structure Ctx where
  mlModel : Option (ℚ → ℚ → ℚ → Except String ℚ)
  pubClient : Bool
  publish : String → Except String Unit

/-- The mutable state touched by `process_queue`: the session state
(`logs`, `last`, `last_status`), the errors surfaced via `st.error`,
the messages published on the output topic, and the CSV file on disk
(`none` when no file exists). -/
structure SState where
  logs : List Row
  last : Option Row
  lastStatus : Option Bool
  shownErrors : List String
  published : List String
  csv : Option (List CsvRow)
deriving DecidableEq, Repr

/-- A queue item, as produced by `_on_connect` / `_on_message` /
the worker loop (app.py lines 107, 115, 118, 130). -/
inductive Item where
  | status (connected : Bool) (ts : ℚ)
  | error (msg : String) (ts : ℚ)
  | raw (payload : String) (ts : ℚ)
  | sensor (data : List (String × JVal)) (ts : ℚ)
deriving Repr

/-- An inbound MQTT payload, after the byte-decode of app.py line 110:
either valid JSON denoting an object, or malformed text. -/
inductive Payload where
  | json (d : List (String × JVal))
  | malformed (s : String)

/-- `_on_message` (app.py lines 109-118): a payload that decodes as
JSON is queued as a `sensor` item; a malformed payload is queued as a
`raw` item. -/
def on_message (p : Payload) (ts : ℚ) : Item :=
  match p with
  | .json d => .sensor d ts
  | .malformed s => .raw s ts

/-- The label/command interpretation of the raw prediction
(app.py lines 213-226): `0 ↦ LED_HIJAU`, `1 ↦ LED_MERAH`,
`2 ↦ LED_KUNING`, anything else `↦ LED_MERAH`. -/
def interpret (p : ℚ) : String × String :=
  if p = 0 then ("Aman (0) - HIJAU", "LED_HIJAU")
  else if p = 1 then ("TIDAK AMAN (1) - MERAH", "LED_MERAH")
  else if p = 2 then ("Waspada (2) - KUNING", "LED_KUNING")
  else ("UNKNOWN (" ++ pyStrNum p ++ ")", "LED_MERAH")

/-- The LED command derived from a raw prediction value. -/
def ledOf (p : ℚ) : String := (interpret p).2

/-- The try/except block of app.py lines 200-239: when a model is
loaded and no feature is NaN, predict, interpret, and publish; any
exception inside the block (predict or publish) is caught and turns
the label into an ML-error marker.  Returns the completed row and the
list of messages actually published. -/
def classifyRow (ctx : Ctx) (row0 : Row) : Row × List String :=
  match ctx.mlModel, row0.suhu, row0.lembap, row0.light with
  | some predict, .num a, .num b, .num c =>
    match predict a b c with
    | .error e => ({ row0 with prediksi_server := "ML Error: " ++ e }, [])
    | .ok p =>
      let raw := pyStrNum p
      let lab := (interpret p).1
      let led := (interpret p).2
      if ctx.pubClient then
        match ctx.publish led with
        | .ok _ =>
          ({ row0 with prediksi_server := lab, prediksi_server_raw := raw,
                       perintah_terkirim := led }, [led])
        | .error e =>
          ({ row0 with prediksi_server := "ML Error: " ++ e,
                       prediksi_server_raw := raw }, [])
      else
        ({ row0 with prediksi_server := lab, prediksi_server_raw := raw,
                     perintah_terkirim := "ERROR PUBLISH (Client Down)" }, [])
  | _, _, _, _ => (row0, [])

/-- The `sensor` branch of `process_queue` up to the completed row
(app.py lines 173-239): parse the four numeric fields in order (the
first failure raises out of `process_queue`), build the initial row,
then run the classification block. -/
def mkRow (ctx : Ctx) (d : List (String × JVal)) (ts : ℚ) : Except String (Row × List String) :=
  match getFloat d "suhu", getFloat d "lembap", getFloat d "light", getInt d "rawLight" with
  | .ok suhu, .ok lembap, .ok light, .ok rawLight =>
    .ok (classifyRow ctx
      { ts := ts, suhu := suhu, lembap := lembap, light := light,
        rawLight := rawLight,
        status_esp := (d.lookup "label").getD (.str "N/A"),
        prediksi_server := "N/A", perintah_terkirim := "N/A",
        prediksi_server_raw := "N/A" })
  | .error e, _, _, _ => .error e
  | .ok _, .error e, _, _ => .error e
  | .ok _, .ok _, .error e, _ => .error e
  | .ok _, .ok _, .ok _, .error e => .error e

/-- The state mutations of app.py lines 229/242-246 for one processed
sensor item: record published messages, set the `last` snapshot, and
append to `logs` bounded at 5000. -/
def appendTrim (cap : ℕ) (logs : List Row) (r : Row) : List Row :=
  if (logs ++ [r]).length > cap then
    (logs ++ [r]).drop ((logs ++ [r]).length - cap)
  else logs ++ [r]

/-- Apply one completed sensor row to the session state. -/
def applySensor (s : SState) (row : Row) (pubs : List String) : SState :=
  { s with last := some row,
           logs := appendTrim 5000 s.logs row,
           published := s.published ++ pubs }

/-- One iteration of the drain loop (app.py lines 161-247): returns
the new state and whether this item set `updated`; `.error` is an
exception escaping the iteration.  A `raw` item matches no branch and
is discarded without any state change. -/
def processItem (ctx : Ctx) (s : SState) : Item → Except String (SState × Bool)
  | .status c _ => .ok ({ s with lastStatus := some c }, true)
  | .error m _ => .ok ({ s with shownErrors := s.shownErrors ++ [m] }, true)
  | .raw _ _ => .ok (s, false)
  | .sensor d ts =>
    match mkRow ctx d ts with
    | .ok (row, pubs) => .ok (applySensor s row pubs, true)
    | .error e => .error e

/-- Outcome of a drain: normal completion with the `updated` flag, or
an uncaught exception (which leaves the mutations already made). -/
inductive DrainRes where
  | done (s : SState) (updated : Bool)
  | raised (s : SState) (e : String)
deriving DecidableEq, Repr

/-- The drain loop of `process_queue` over the queued items in arrival
order. -/
def drainAux (ctx : Ctx) (s : SState) (upd : Bool) : List Item → DrainRes
  | [] => .done s upd
  | it :: rest =>
    match processItem ctx s it with
    | .ok (s2, u) => drainAux ctx s2 (upd || u) rest
    | .error e => .raised s e

/-- Outcome of one `process_queue` call: the return value exists only
when no exception escaped. -/
inductive PQResult where
  | ok (s : SState) (updated : Bool)
  | raised (s : SState) (e : String)
deriving DecidableEq, Repr

/-- The logs in either outcome. -/
def logsOf : PQResult → List Row
  | .ok s _ => s.logs
  | .raised s _ => s.logs

/-- The CSV block of app.py lines 252-263: if anything updated and the
log is nonempty, rewrite the CSV mirror wholesale from the current
log; a failing write attempt (`csvOk = false`) is swallowed and
changes nothing. -/
def csvStep (csvOk : Bool) (s2 : SState) (upd : Bool) : SState :=
  if upd && !s2.logs.isEmpty then
    if csvOk then { s2 with csv := some (s2.logs.map Row.toCsv) } else s2
  else s2

/-- `process_queue` (app.py lines 156-267): drain all queued items,
then run the CSV block, and return `updated`.  An exception escaping
the drain skips the CSV block and yields no return value. -/
def process_queue (ctx : Ctx) (csvOk : Bool) (s : SState) (items : List Item) : PQResult :=
  match drainAux ctx s false items with
  | .raised s2 e => .raised s2 e
  | .done s2 upd => .ok (csvStep csvOk s2 upd) upd

/-- Whether an item is a `sensor` item. -/
def Item.isSensor : Item → Bool
  | .sensor _ _ => true
  | _ => false

/-- Whether an item is a `raw` item. -/
def Item.isRaw : Item → Bool
  | .raw _ _ => true
  | _ => false

/-- Whether processing the item cannot raise: for a sensor item, all
four numeric field extractions succeed. -/
def Item.parses : Item → Bool
  | .sensor d _ =>
    (getFloat d "suhu").isOk && (getFloat d "lembap").isOk &&
    (getFloat d "light").isOk && (getInt d "rawLight").isOk
  | _ => true

/-- The row a queue item contributes to the History Log, if any. -/
def sensorRecord (ctx : Ctx) : Item → Option Row
  | .sensor d ts =>
    match mkRow ctx d ts with
    | .ok (row, _) => some row
    | .error _ => none
  | _ => none

/-- The state at startup with no prior CSV file. -/
def emptyState : SState :=
  { logs := [], last := none, lastStatus := none, shownErrors := [],
    published := [], csv := none }

/-! ## Helper lemmas -/

lemma appendTrim_length_le (cap : ℕ) (logs : List Row) (r : Row) :
    (appendTrim cap logs r).length ≤ cap ∨
      (appendTrim cap logs r).length = logs.length + 1 := by
  unfold appendTrim
  split_ifs with h
  · left
    simp only [List.length_drop]
    omega
  · right
    simp

lemma appendTrim_length_le_of_le (cap : ℕ) (logs : List Row) (r : Row)
    (h : logs.length ≤ cap) : (appendTrim cap logs r).length ≤ cap := by
  rcases appendTrim_length_le cap logs r with h2 | h2
  · exact h2
  · rw [h2]
    by_contra hc
    have : (appendTrim cap logs r).length = cap := by
      unfold appendTrim
      rw [if_pos (by simp; omega)]
      simp only [List.length_drop]
      simp
      omega
    omega

lemma appendTrim_eq_append (cap : ℕ) (logs : List Row) (r : Row)
    (h : logs.length + 1 ≤ cap) : appendTrim cap logs r = logs ++ [r] := by
  unfold appendTrim
  rw [if_neg (by simp; omega)]

lemma appendTrim_getLast (cap : ℕ) (logs : List Row) (r : Row)
    (h : 1 ≤ cap) : (appendTrim cap logs r).getLast? = some r := by
  unfold appendTrim
  split
  · rw [List.drop_append_of_le_length (by simp; omega)]
    exact List.getLast?_concat _
  · exact List.getLast?_concat _

lemma classifyRow_skip (ctx : Ctx) (row0 : Row)
    (h : row0.suhu = .nan ∨ row0.lembap = .nan ∨ row0.light = .nan) :
    classifyRow ctx row0 = (row0, []) := by
  unfold classifyRow
  rcases hm : ctx.mlModel with _ | predict <;>
    rcases hs : row0.suhu with _ | a <;>
      rcases hl : row0.lembap with _ | b <;>
        rcases hg : row0.light with _ | c <;>
          simp_all

lemma getFloat_of_num_or_none (d : List (String × JVal)) (k : String)
    (h : d.lookup k = none ∨ ∃ q, d.lookup k = some (.num q)) :
    ∃ v, getFloat d k = .ok v ∧ (d.lookup k = none → v = FVal.nan) := by
  rcases h with h | ⟨q, h⟩
  · exact ⟨.nan, by simp [getFloat, h]⟩
  · exact ⟨.num q, by simp [getFloat, h]⟩

/-! ## Claim C1 -/

/-- Concrete context with no loaded model and no publisher client. -/
def ctxT : Ctx := { mlModel := none, pubClient := false, publish := fun _ => .ok () }

/-- A decoded sensor payload carrying `suhu`, `lembap` and `light` but
no `rawLight` key. -/
def dMissingRaw : List (String × JVal) :=
  [("suhu", .num 25), ("lembap", .num 60), ("light", .num 100)]

/-- Claim C1 counterexample: a sensor item whose payload lacks the
`rawLight` key makes `process_queue` raise (`int(np.nan)` raises
`ValueError`), appends no record, and leaves the state unchanged —
refuting "processing never raises an exception ... when any of the
keys suhu, lembap, light, or rawLight is absent". -/
theorem c1_cex :
    process_queue ctxT true emptyState [Item.sensor dMissingRaw 0]
      = .raised emptyState "cannot convert float NaN to integer" := by
  decide

/-- Claim C1 (amended): for a sensor item whose `rawLight` key is
present and numeric and whose `suhu`/`lembap`/`light` values are each
either absent or numeric, a missing field becomes NaN (never zero) in
the resulting `Row`, classification is skipped (the label stays at the
fallback sentinel `"N/A"`), nothing is published, the record is still
appended, and no exception is raised.  (As the counterexample shows,
this fails when `rawLight` itself is absent, and a field value that
`float`/`int` cannot parse also raises.) -/
theorem c1_absent_field_skips_classification
    (ctx : Ctx) (s : SState) (d : List (String × JVal)) (ts r : ℚ)
    (hraw : d.lookup "rawLight" = some (.num r))
    (hsuhu : d.lookup "suhu" = none ∨ ∃ q, d.lookup "suhu" = some (.num q))
    (hlembap : d.lookup "lembap" = none ∨ ∃ q, d.lookup "lembap" = some (.num q))
    (hlight : d.lookup "light" = none ∨ ∃ q, d.lookup "light" = some (.num q))
    (hmiss : d.lookup "suhu" = none ∨ d.lookup "lembap" = none ∨ d.lookup "light" = none) :
    ∃ row : Row,
      processItem ctx s (.sensor d ts) = .ok (applySensor s row [], true) ∧
      row.prediksi_server = "N/A" ∧
      row.perintah_terkirim = "N/A" ∧
      (d.lookup "suhu" = none → row.suhu = .nan) ∧
      (d.lookup "lembap" = none → row.lembap = .nan) ∧
      (d.lookup "light" = none → row.light = .nan) ∧
      (applySensor s row []).logs = appendTrim 5000 s.logs row ∧
      (applySensor s row []).published = s.published := by
  obtain ⟨v1, hv1, hn1⟩ := getFloat_of_num_or_none d "suhu" hsuhu
  obtain ⟨v2, hv2, hn2⟩ := getFloat_of_num_or_none d "lembap" hlembap
  obtain ⟨v3, hv3, hn3⟩ := getFloat_of_num_or_none d "light" hlight
  have hint : getInt d "rawLight" = .ok (pyTrunc r) := by simp [getInt, hraw]
  refine ⟨{ ts := ts, suhu := v1, lembap := v2, light := v3,
            rawLight := pyTrunc r,
            status_esp := (d.lookup "label").getD (.str "N/A"),
            prediksi_server := "N/A", perintah_terkirim := "N/A",
            prediksi_server_raw := "N/A" }, ?_, rfl, rfl, ?_, ?_, ?_, rfl, ?_⟩
  · have hskip : v1 = FVal.nan ∨ v2 = FVal.nan ∨ v3 = FVal.nan := by
      rcases hmiss with h | h | h
      · exact Or.inl (hn1 h)
      · exact Or.inr (Or.inl (hn2 h))
      · exact Or.inr (Or.inr (hn3 h))
    simp only [processItem, mkRow, hv1, hv2, hv3, hint]
    rw [classifyRow_skip ctx _ (by simpa using hskip)]
  · exact hn1
  · exact hn2
  · exact hn3
  · simp [applySensor]

/-- A decoded sensor payload carrying only `suhu` and `rawLight`
(`lembap` and `light` absent). -/
def dOnlySuhu : List (String × JVal) :=
  [("suhu", .num 25), ("rawLight", .num 3995)]

/-- Witness for C1's amended theorem at a concrete input. -/
theorem c1_witness :
    ∃ row : Row,
      processItem ctxT emptyState (.sensor dOnlySuhu 3) = .ok (applySensor emptyState row [], true) ∧
      row.prediksi_server = "N/A" ∧
      row.perintah_terkirim = "N/A" ∧
      (dOnlySuhu.lookup "suhu" = none → row.suhu = .nan) ∧
      (dOnlySuhu.lookup "lembap" = none → row.lembap = .nan) ∧
      (dOnlySuhu.lookup "light" = none → row.light = .nan) ∧
      (applySensor emptyState row []).logs = appendTrim 5000 emptyState.logs row ∧
      (applySensor emptyState row []).published = emptyState.published :=
  c1_absent_field_skips_classification ctxT emptyState dOnlySuhu 3 3995
    (by decide) (Or.inr ⟨25, by decide⟩) (Or.inl (by decide)) (Or.inl (by decide))
    (Or.inr (Or.inl (by decide)))

/-! ## Claim C3 -/

/-- The logs in either drain outcome. -/
def logsOfDrain : DrainRes → List Row
  | .done s _ => s.logs
  | .raised s _ => s.logs

lemma drainAux_length (ctx : Ctx) (items : List Item) :
    ∀ (s : SState) (upd : Bool), s.logs.length ≤ 5000 →
      (logsOfDrain (drainAux ctx s upd items)).length ≤ 5000 := by
  induction items with
  | nil => intro s upd h; simpa [drainAux, logsOfDrain]
  | cons it rest ih =>
    intro s upd h
    cases it with
    | status c t => exact ih _ _ (by simpa [processItem] using h)
    | error m t => exact ih _ _ (by simpa [processItem] using h)
    | raw p t => exact ih _ _ (by simpa [processItem] using h)
    | sensor d t =>
      cases hmk : mkRow ctx d t with
      | ok rp =>
        obtain ⟨row, pubs⟩ := rp
        have : drainAux ctx s upd (Item.sensor d t :: rest)
            = drainAux ctx (applySensor s row pubs) (upd || true) rest := by
          simp [drainAux, processItem, hmk]
        rw [this]
        exact ih _ _ (appendTrim_length_le_of_le 5000 s.logs row h)
      | error e =>
        have : drainAux ctx s upd (Item.sensor d t :: rest) = .raised s e := by
          simp [drainAux, processItem, hmk]
        rw [this]
        simpa [logsOfDrain]

lemma csvStep_logs (csvOk : Bool) (s2 : SState) (upd : Bool) :
    (csvStep csvOk s2 upd).logs = s2.logs := by
  unfold csvStep
  split_ifs <;> rfl

lemma csvStep_last (csvOk : Bool) (s2 : SState) (upd : Bool) :
    (csvStep csvOk s2 upd).last = s2.last := by
  unfold csvStep
  split_ifs <;> rfl

lemma csvStep_published (csvOk : Bool) (s2 : SState) (upd : Bool) :
    (csvStep csvOk s2 upd).published = s2.published := by
  unfold csvStep
  split_ifs <;> rfl

lemma process_queue_logs (ctx : Ctx) (csvOk : Bool) (s : SState) (items : List Item) :
    logsOf (process_queue ctx csvOk s items) = logsOfDrain (drainAux ctx s false items) := by
  unfold process_queue
  cases h : drainAux ctx s false items with
  | raised s2 e => simp [logsOf, logsOfDrain]
  | done s2 upd => simp [logsOf, logsOfDrain, csvStep_logs]

/-- A concrete log row with a given timestamp. -/
def mkSimpleRow (t : ℚ) : Row :=
  { ts := t, suhu := .num 1, lembap := .num 2, light := .num 3,
    rawLight := 4, status_esp := .str "N/A", prediksi_server := "N/A",
    perintah_terkirim := "N/A", prediksi_server_raw := "N/A" }

/-- Claim C3: starting from a log within the 5000-record capacity,
every `process_queue` call (completed or interrupted by an exception)
leaves the History Log at no more than 5000 records; and the
append-then-trim eviction used by `process_queue` is FIFO — at
capacity 3, appending the records A, B, C, D in order yields
`[B, C, D]` (the oldest record is evicted). -/
theorem c3_capacity_and_fifo :
    (∀ (ctx : Ctx) (csvOk : Bool) (s : SState) (items : List Item),
       s.logs.length ≤ 5000 →
       (logsOf (process_queue ctx csvOk s items)).length ≤ 5000) ∧
    appendTrim 3 (appendTrim 3 (appendTrim 3 (appendTrim 3 [] (mkSimpleRow 1))
        (mkSimpleRow 2)) (mkSimpleRow 3)) (mkSimpleRow 4)
      = [mkSimpleRow 2, mkSimpleRow 3, mkSimpleRow 4] := by
  constructor
  · intro ctx csvOk s items h
    rw [process_queue_logs]
    exact drainAux_length ctx items s false h
  · decide

/-- Witness for C3's capacity invariant at a concrete input. -/
theorem c3_witness :
    emptyState.logs.length ≤ 5000 ∧
    (logsOf (process_queue ctxT true emptyState [Item.sensor dOnlySuhu 3])).length ≤ 5000 :=
  ⟨by decide, c3_capacity_and_fifo.1 ctxT true emptyState [Item.sensor dOnlySuhu 3] (by decide)⟩

/-! ## Claim C4 -/

lemma drainAux_nonsensor (ctx : Ctx) (items : List Item) :
    ∀ (s : SState) (upd : Bool), (∀ it ∈ items, it.isSensor = false) →
      ∃ s2 u, drainAux ctx s upd items = .done s2 u ∧
        s2.logs = s.logs ∧ s2.last = s.last ∧ s2.published = s.published := by
  induction items with
  | nil => intro s upd _; exact ⟨s, upd, rfl, rfl, rfl, rfl⟩
  | cons it rest ih =>
    intro s upd h
    have hrest : ∀ it2 ∈ rest, it2.isSensor = false :=
      fun it2 hm => h it2 (List.mem_cons_of_mem _ hm)
    cases it with
    | status c t =>
      obtain ⟨s2, u, heq, h1, h2, h3⟩ := ih { s with lastStatus := some c } (upd || true) hrest
      exact ⟨s2, u, by simpa [drainAux, processItem] using heq, h1, h2, h3⟩
    | error m t =>
      obtain ⟨s2, u, heq, h1, h2, h3⟩ :=
        ih { s with shownErrors := s.shownErrors ++ [m] } (upd || true) hrest
      exact ⟨s2, u, by simpa [drainAux, processItem] using heq, h1, h2, h3⟩
    | raw p t =>
      obtain ⟨s2, u, heq, h1, h2, h3⟩ := ih s (upd || false) hrest
      exact ⟨s2, u, by simpa [drainAux, processItem] using heq, h1, h2, h3⟩
    | sensor d t =>
      exact absurd (h _ (List.mem_cons_self _ _)) (by simp [Item.isSensor])

lemma drainAux_allraw (ctx : Ctx) (items : List Item) :
    ∀ (s : SState) (upd : Bool), (∀ it ∈ items, it.isRaw = true) →
      drainAux ctx s upd items = .done s upd := by
  induction items with
  | nil => intro s upd _; rfl
  | cons it rest ih =>
    intro s upd h
    cases it with
    | raw p t =>
      have : drainAux ctx s upd (Item.raw p t :: rest) = drainAux ctx s (upd || false) rest := by
        simp [drainAux, processItem]
      rw [this, Bool.or_false]
      exact ih s upd (fun it2 hm => h it2 (List.mem_cons_of_mem _ hm))
    | status c t => exact absurd (h _ (List.mem_cons_self _ _)) (by simp [Item.isRaw])
    | error m t => exact absurd (h _ (List.mem_cons_self _ _)) (by simp [Item.isRaw])
    | sensor d t => exact absurd (h _ (List.mem_cons_self _ _)) (by simp [Item.isRaw])

/-- Claim C4 counterexample: a malformed payload becomes a `raw` queue
item, but `process_queue` discards it with no state change at all —
nothing is surfaced (no error message, no status change, `updated`
stays false).  This refutes "a malformed (non-JSON) payload ... is
surfaced rather than dropped silently". -/
theorem c4_cex :
    on_message (.malformed "not json") 5 = Item.raw "not json" 5 ∧
    process_queue ctxT true emptyState [Item.raw "not json" 5] = .ok emptyState false := by
  constructor
  · rfl
  · decide

/-- Claim C4 (amended): non-sensor queue items (status, error, raw)
never cause a record to enter the History Log, never publish, and
never change the snapshot; a malformed payload is preserved by
`_on_message` as a `raw` queue item, but `process_queue` has no branch
for `raw` items and drops them silently: a drain of only raw items
returns `false` and leaves the state exactly unchanged (nothing is
surfaced). -/
theorem c4_nonsensor_items
    (ctx : Ctx) (csvOk : Bool) (s : SState) (items : List Item) :
    ((∀ it ∈ items, it.isSensor = false) →
      ∃ s2 u, process_queue ctx csvOk s items = .ok s2 u ∧
        s2.logs = s.logs ∧ s2.last = s.last ∧ s2.published = s.published) ∧
    ((∀ it ∈ items, it.isRaw = true) →
      process_queue ctx csvOk s items = .ok s false) ∧
    (∀ (p : String) (ts : ℚ), on_message (.malformed p) ts = .raw p ts) ∧
    (∀ (p : String) (ts : ℚ), processItem ctx s (.raw p ts) = .ok (s, false)) := by
  refine ⟨?_, ?_, fun p ts => rfl, fun p ts => rfl⟩
  · intro h
    obtain ⟨s2, u, heq, h1, h2, h3⟩ := drainAux_nonsensor ctx items s false h
    refine ⟨csvStep csvOk s2 u, u, ?_, ?_, ?_, ?_⟩
    · unfold process_queue
      rw [heq]
    · rw [csvStep_logs, h1]
    · rw [csvStep_last, h2]
    · rw [csvStep_published, h3]
  · intro h
    unfold process_queue
    rw [drainAux_allraw ctx items s false h]
    simp [csvStep]

/-- Witness for C4's amended theorem at a concrete input. -/
theorem c4_witness :
    ∃ s2 u, process_queue ctxT true emptyState [Item.status true 0, Item.error "MQTT worker error: x" 1]
        = .ok s2 u ∧
      s2.logs = emptyState.logs ∧ s2.last = emptyState.last ∧
      s2.published = emptyState.published :=
  (c4_nonsensor_items ctxT true emptyState
    [Item.status true 0, Item.error "MQTT worker error: x" 1]).1 (by decide)

/-! ## Classification-path lemmas (shared by C2, C5, C6) -/

/-- The initial row (app.py lines 182-191) for a payload whose four
numeric fields are present and numeric. -/
def row0Of (d : List (String × JVal)) (ts a b c r : ℚ) : Row :=
  { ts := ts, suhu := .num a, lembap := .num b, light := .num c,
    rawLight := pyTrunc r,
    status_esp := (d.lookup "label").getD (.str "N/A"),
    prediksi_server := "N/A", perintah_terkirim := "N/A",
    prediksi_server_raw := "N/A" }

lemma mkRow_eq_classify (ctx : Ctx) (d : List (String × JVal)) (ts a b c r : ℚ)
    (hs : d.lookup "suhu" = some (.num a))
    (hl : d.lookup "lembap" = some (.num b))
    (hg : d.lookup "light" = some (.num c))
    (hr : d.lookup "rawLight" = some (.num r)) :
    mkRow ctx d ts = .ok (classifyRow ctx (row0Of d ts a b c r)) := by
  have h1 : getFloat d "suhu" = .ok (.num a) := by simp [getFloat, hs]
  have h2 : getFloat d "lembap" = .ok (.num b) := by simp [getFloat, hl]
  have h3 : getFloat d "light" = .ok (.num c) := by simp [getFloat, hg]
  have h4 : getInt d "rawLight" = .ok (pyTrunc r) := by simp [getInt, hr]
  simp only [mkRow, h1, h2, h3, h4, row0Of]

lemma classifyRow_predict_raises (ctx : Ctx) (row0 : Row)
    (predict : ℚ → ℚ → ℚ → Except String ℚ) (a b c : ℚ) (e : String)
    (hm : ctx.mlModel = some predict)
    (hs : row0.suhu = .num a) (hl : row0.lembap = .num b) (hg : row0.light = .num c)
    (hp : predict a b c = .error e) :
    classifyRow ctx row0 = ({ row0 with prediksi_server := "ML Error: " ++ e }, []) := by
  unfold classifyRow
  rw [hm, hs, hl, hg]
  simp only [hp]

lemma classifyRow_predict_ok_publish_ok (ctx : Ctx) (row0 : Row)
    (predict : ℚ → ℚ → ℚ → Except String ℚ) (a b c p : ℚ)
    (hm : ctx.mlModel = some predict)
    (hs : row0.suhu = .num a) (hl : row0.lembap = .num b) (hg : row0.light = .num c)
    (hp : predict a b c = .ok p)
    (hc : ctx.pubClient = true)
    (hpub : ctx.publish (ledOf p) = .ok ()) :
    classifyRow ctx row0
      = ({ row0 with prediksi_server := (interpret p).1,
                     prediksi_server_raw := pyStrNum p,
                     perintah_terkirim := ledOf p }, [ledOf p]) := by
  unfold classifyRow
  rw [hm, hs, hl, hg]
  simp only [hp, hc, if_true]
  rw [show (interpret p).2 = ledOf p from rfl, hpub]

lemma classifyRow_predict_ok_publish_raises (ctx : Ctx) (row0 : Row)
    (predict : ℚ → ℚ → ℚ → Except String ℚ) (a b c p : ℚ) (e : String)
    (hm : ctx.mlModel = some predict)
    (hs : row0.suhu = .num a) (hl : row0.lembap = .num b) (hg : row0.light = .num c)
    (hp : predict a b c = .ok p)
    (hc : ctx.pubClient = true)
    (hpub : ctx.publish (ledOf p) = .error e) :
    classifyRow ctx row0
      = ({ row0 with prediksi_server := "ML Error: " ++ e,
                     prediksi_server_raw := pyStrNum p }, []) := by
  unfold classifyRow
  rw [hm, hs, hl, hg]
  simp only [hp, hc, if_true]
  rw [show (interpret p).2 = ledOf p from rfl, hpub]

lemma classifyRow_predict_ok_no_client (ctx : Ctx) (row0 : Row)
    (predict : ℚ → ℚ → ℚ → Except String ℚ) (a b c p : ℚ)
    (hm : ctx.mlModel = some predict)
    (hs : row0.suhu = .num a) (hl : row0.lembap = .num b) (hg : row0.light = .num c)
    (hp : predict a b c = .ok p)
    (hc : ctx.pubClient = false) :
    classifyRow ctx row0
      = ({ row0 with prediksi_server := (interpret p).1,
                     prediksi_server_raw := pyStrNum p,
                     perintah_terkirim := "ERROR PUBLISH (Client Down)" }, []) := by
  unfold classifyRow
  rw [hm, hs, hl, hg]
  simp only [hp, hc]
  rw [if_neg (by simp)]

/-! ## Claim C2 -/

/-- Claim C2: with a configured model, when `predict` raises on one
sensor item, the exception is caught, that item's record carries the
error label `"ML Error: ..."` (and no command — the only
confidence-like field, the raw prediction, stays `"N/A"`), the record
is still appended to the log, and the drain continues with the
remaining items exactly as if processing had started from the updated
state: one classifier failure never aborts the drain. -/
theorem c2_classifier_failure_isolated
    (ctx : Ctx) (s : SState) (d : List (String × JVal)) (ts : ℚ)
    (predict : ℚ → ℚ → ℚ → Except String ℚ) (a b c r : ℚ) (e : String)
    (hm : ctx.mlModel = some predict)
    (hs : d.lookup "suhu" = some (.num a))
    (hl : d.lookup "lembap" = some (.num b))
    (hg : d.lookup "light" = some (.num c))
    (hr : d.lookup "rawLight" = some (.num r))
    (hp : predict a b c = .error e) :
    ∃ row : Row,
      processItem ctx s (.sensor d ts) = .ok (applySensor s row [], true) ∧
      row.prediksi_server = "ML Error: " ++ e ∧
      row.perintah_terkirim = "N/A" ∧
      row.prediksi_server_raw = "N/A" ∧
      (applySensor s row []).logs = appendTrim 5000 s.logs row ∧
      (applySensor s row []).published = s.published ∧
      (∀ (upd : Bool) (rest : List Item),
        drainAux ctx s upd (Item.sensor d ts :: rest)
          = drainAux ctx (applySensor s row []) true rest) := by
  have hmk : mkRow ctx d ts
      = .ok ({ row0Of d ts a b c r with prediksi_server := "ML Error: " ++ e }, []) := by
    rw [mkRow_eq_classify ctx d ts a b c r hs hl hg hr,
        classifyRow_predict_raises ctx _ predict a b c e hm rfl rfl rfl hp]
  have hpi : processItem ctx s (.sensor d ts)
      = .ok (applySensor s { row0Of d ts a b c r with prediksi_server := "ML Error: " ++ e } [], true) := by
    simp [processItem, hmk]
  refine ⟨_, hpi, rfl, rfl, rfl, rfl, by simp [applySensor], ?_⟩
  intro upd rest
  simp [drainAux, hpi]

/-- Concrete context whose model always raises. -/
def ctxPredErr : Ctx :=
  { mlModel := some (fun _ _ _ => .error "predict boom"), pubClient := true,
    publish := fun _ => .ok () }

/-- A decoded sensor payload with all four numeric fields present. -/
def dFull : List (String × JVal) :=
  [("suhu", .num 25), ("lembap", .num 60), ("light", .num 100), ("rawLight", .num 3995)]

/-- Witness for C2 at a concrete input. -/
theorem c2_witness :
    ∃ row : Row,
      processItem ctxPredErr emptyState (.sensor dFull 7) = .ok (applySensor emptyState row [], true) ∧
      row.prediksi_server = "ML Error: " ++ "predict boom" ∧
      row.perintah_terkirim = "N/A" ∧
      row.prediksi_server_raw = "N/A" ∧
      (applySensor emptyState row []).logs = appendTrim 5000 emptyState.logs row ∧
      (applySensor emptyState row []).published = emptyState.published ∧
      (∀ (upd : Bool) (rest : List Item),
        drainAux ctxPredErr emptyState upd (Item.sensor dFull 7 :: rest)
          = drainAux ctxPredErr (applySensor emptyState row []) true rest) :=
  c2_classifier_failure_isolated ctxPredErr emptyState dFull 7
    (fun _ _ _ => .error "predict boom") 25 60 100 3995 "predict boom"
    rfl (by decide) (by decide) (by decide) (by decide) rfl

/-! ## Claim C5 -/

/-- The completed row of the success path (prediction obtained,
command published): the initial row with the interpreted label, the
raw prediction string and the sent command filled in. -/
def classifiedOkRow (d : List (String × JVal)) (ts a b c r p : ℚ) : Row :=
  { (row0Of d ts a b c r) with prediksi_server := (interpret p).1, prediksi_server_raw := pyStrNum p, perintah_terkirim := ledOf p }

/-- Claim C5: a successfully classified and published sensor item
publishes exactly the command derived from the raw prediction by the
fixed mapping, and records it in the log row; the mapping itself is
`0 ↦ LED_HIJAU`, `1 ↦ LED_MERAH`, `2 ↦ LED_KUNING`, every other
prediction falls to the fail-safe `LED_MERAH`, and the derived command
is always one of the three LED commands — never "no action". -/
theorem c5_actuation_mapping
    (ctx : Ctx) (s : SState) (d : List (String × JVal)) (ts : ℚ)
    (predict : ℚ → ℚ → ℚ → Except String ℚ) (a b c r p : ℚ)
    (hm : ctx.mlModel = some predict)
    (hs : d.lookup "suhu" = some (.num a))
    (hl : d.lookup "lembap" = some (.num b))
    (hg : d.lookup "light" = some (.num c))
    (hr : d.lookup "rawLight" = some (.num r))
    (hp : predict a b c = .ok p)
    (hc : ctx.pubClient = true)
    (hpub : ctx.publish (ledOf p) = .ok ()) :
    (∃ row : Row,
      processItem ctx s (.sensor d ts) = .ok (applySensor s row [ledOf p], true) ∧
      row.perintah_terkirim = ledOf p ∧
      row.prediksi_server = (interpret p).1 ∧
      (applySensor s row [ledOf p]).published = s.published ++ [ledOf p] ∧
      (applySensor s row [ledOf p]).logs = appendTrim 5000 s.logs row) ∧
    ledOf 0 = "LED_HIJAU" ∧ ledOf 1 = "LED_MERAH" ∧ ledOf 2 = "LED_KUNING" ∧
    (∀ q : ℚ, q ≠ 0 → q ≠ 1 → q ≠ 2 → ledOf q = "LED_MERAH") ∧
    (∀ q : ℚ, ledOf q = "LED_HIJAU" ∨ ledOf q = "LED_MERAH" ∨ ledOf q = "LED_KUNING") := by
  refine ⟨?_, by decide, by decide, by decide, ?_, ?_⟩
  · have hmk : mkRow ctx d ts = .ok (classifiedOkRow d ts a b c r p, [ledOf p]) := by
      rw [mkRow_eq_classify ctx d ts a b c r hs hl hg hr,
          classifyRow_predict_ok_publish_ok ctx _ predict a b c p hm rfl rfl rfl hp hc hpub]
      rfl
    exact ⟨classifiedOkRow d ts a b c r p, by simp [processItem, hmk], rfl, rfl, rfl, rfl⟩
  · intro q h0 h1 h2
    simp [ledOf, interpret, h0, h1, h2]
  · intro q
    unfold ledOf interpret
    split_ifs <;> simp

/-- Concrete context whose model predicts class 2 and whose publish
succeeds. -/
def ctxPub2 : Ctx :=
  { mlModel := some (fun _ _ _ => .ok 2), pubClient := true,
    publish := fun _ => .ok () }

/-- Witness for C5 at a concrete input. -/
theorem c5_witness :
    (∃ row : Row,
      processItem ctxPub2 emptyState (.sensor dFull 7) = .ok (applySensor emptyState row [ledOf 2], true) ∧
      row.perintah_terkirim = ledOf 2 ∧
      row.prediksi_server = (interpret 2).1 ∧
      (applySensor emptyState row [ledOf 2]).published = emptyState.published ++ [ledOf 2] ∧
      (applySensor emptyState row [ledOf 2]).logs = appendTrim 5000 emptyState.logs row) ∧
    ledOf 0 = "LED_HIJAU" ∧ ledOf 1 = "LED_MERAH" ∧ ledOf 2 = "LED_KUNING" ∧
    (∀ q : ℚ, q ≠ 0 → q ≠ 1 → q ≠ 2 → ledOf q = "LED_MERAH") ∧
    (∀ q : ℚ, ledOf q = "LED_HIJAU" ∨ ledOf q = "LED_MERAH" ∨ ledOf q = "LED_KUNING") :=
  c5_actuation_mapping ctxPub2 emptyState dFull 7 (fun _ _ _ => .ok 2)
    25 60 100 3995 2 rfl (by decide) (by decide) (by decide) (by decide) rfl rfl rfl

/-! ## Claim C6 -/

/-- The state in either outcome. -/
def stateOf : PQResult → SState
  | .ok s _ => s
  | .raised s _ => s

/-- Concrete context whose model predicts class 0 and whose publish
call raises. -/
def ctxPubErr : Ctx :=
  { mlModel := some (fun _ _ _ => .ok 0), pubClient := true,
    publish := fun _ => .error "boom" }

/-- Claim C6 counterexample: when `publish` raises, the exception is
caught by the classification `except` handler, not a publish-specific
one: the appended record's command field keeps the untouched sentinel
`"N/A"` (indistinguishable from "no publish attempted"), and the
classification label is overwritten by `"ML Error: boom"`.  No
publish-error marker is recorded, refuting the claim as stated. -/
theorem c6_cex :
    (stateOf (process_queue ctxPubErr true emptyState [Item.sensor dFull 7])).logs.map
        Row.perintah_terkirim = ["N/A"] ∧
    (stateOf (process_queue ctxPubErr true emptyState [Item.sensor dFull 7])).logs.map
        Row.prediksi_server = ["ML Error: boom"] ∧
    (stateOf (process_queue ctxPubErr true emptyState [Item.sensor dFull 7])).published = [] := by
  refine ⟨?_, ?_, ?_⟩ <;> decide

/-- The completed row when the publish client is down: the command
field records the client-down marker and the label keeps the
classification result. -/
def clientDownRow (d : List (String × JVal)) (ts a b c r p : ℚ) : Row :=
  { (row0Of d ts a b c r) with prediksi_server := (interpret p).1, prediksi_server_raw := pyStrNum p, perintah_terkirim := "ERROR PUBLISH (Client Down)" }

/-- The completed row when the publish call raises: the label is
overwritten by the ML-error marker and the command field stays at the
initial sentinel. -/
def publishErrRow (d : List (String × JVal)) (ts a b c r p : ℚ) (e : String) : Row :=
  { (row0Of d ts a b c r) with prediksi_server := "ML Error: " ++ e, prediksi_server_raw := pyStrNum p }

/-- Claim C6 (amended): for a classified sensor item, when the publish
client is unavailable the record carries the publish-error marker
`"ERROR PUBLISH (Client Down)"` and keeps its classification label;
when the publish call raises, the exception is caught by the
classification handler, which overwrites the label with
`"ML Error: ..."` and leaves the command field `"N/A"`.  In both cases
nothing is published and the record is still appended to the History
Log. -/
theorem c6_publish_failure
    (ctx : Ctx) (s : SState) (d : List (String × JVal)) (ts : ℚ)
    (predict : ℚ → ℚ → ℚ → Except String ℚ) (a b c r p : ℚ)
    (hm : ctx.mlModel = some predict)
    (hs : d.lookup "suhu" = some (.num a))
    (hl : d.lookup "lembap" = some (.num b))
    (hg : d.lookup "light" = some (.num c))
    (hr : d.lookup "rawLight" = some (.num r))
    (hp : predict a b c = .ok p) :
    (ctx.pubClient = false →
      ∃ row : Row,
        processItem ctx s (.sensor d ts) = .ok (applySensor s row [], true) ∧
        row.perintah_terkirim = "ERROR PUBLISH (Client Down)" ∧
        row.prediksi_server = (interpret p).1 ∧
        (applySensor s row []).logs = appendTrim 5000 s.logs row ∧
        (applySensor s row []).published = s.published) ∧
    (∀ e : String, ctx.pubClient = true → ctx.publish (ledOf p) = .error e →
      ∃ row : Row,
        processItem ctx s (.sensor d ts) = .ok (applySensor s row [], true) ∧
        row.perintah_terkirim = "N/A" ∧
        row.prediksi_server = "ML Error: " ++ e ∧
        row.prediksi_server_raw = pyStrNum p ∧
        (applySensor s row []).logs = appendTrim 5000 s.logs row ∧
        (applySensor s row []).published = s.published) := by
  constructor
  · intro hc
    have hmk : mkRow ctx d ts = .ok (clientDownRow d ts a b c r p, []) := by
      rw [mkRow_eq_classify ctx d ts a b c r hs hl hg hr,
          classifyRow_predict_ok_no_client ctx _ predict a b c p hm rfl rfl rfl hp hc]
      rfl
    exact ⟨clientDownRow d ts a b c r p, by simp [processItem, hmk], rfl, rfl, rfl,
      by simp [applySensor]⟩
  · intro e hc hpub
    have hmk : mkRow ctx d ts = .ok (publishErrRow d ts a b c r p e, []) := by
      rw [mkRow_eq_classify ctx d ts a b c r hs hl hg hr,
          classifyRow_predict_ok_publish_raises ctx _ predict a b c p e hm rfl rfl rfl hp hc hpub]
      rfl
    exact ⟨publishErrRow d ts a b c r p e, by simp [processItem, hmk], rfl, rfl, rfl, rfl,
      by simp [applySensor]⟩

/-- Witness for C6's amended theorem at a concrete input. -/
theorem c6_witness :
    ∃ row : Row,
      processItem ctxPubErr emptyState (.sensor dFull 7) = .ok (applySensor emptyState row [], true) ∧
      row.perintah_terkirim = "N/A" ∧
      row.prediksi_server = "ML Error: " ++ "boom" ∧
      row.prediksi_server_raw = pyStrNum 0 ∧
      (applySensor emptyState row []).logs = appendTrim 5000 emptyState.logs row ∧
      (applySensor emptyState row []).published = emptyState.published :=
  (c6_publish_failure ctxPubErr emptyState dFull 7 (fun _ _ _ => .ok 0)
    25 60 100 3995 0 rfl (by decide) (by decide) (by decide) (by decide) rfl).2
    "boom" rfl rfl

/-! ## Claim C7 -/

lemma mkRow_isOk_of_parses (ctx : Ctx) (d : List (String × JVal)) (ts : ℚ)
    (h : (Item.sensor d ts).parses = true) :
    ∃ row pubs, mkRow ctx d ts = .ok (row, pubs) := by
  simp only [Item.parses, Bool.and_eq_true] at h
  obtain ⟨⟨⟨h1, h2⟩, h3⟩, h4⟩ := h
  cases e1 : getFloat d "suhu" with
  | error e => rw [e1] at h1; simp [Except.isOk, Except.toBool] at h1
  | ok v1 =>
    cases e2 : getFloat d "lembap" with
    | error e => rw [e2] at h2; simp [Except.isOk, Except.toBool] at h2
    | ok v2 =>
      cases e3 : getFloat d "light" with
      | error e => rw [e3] at h3; simp [Except.isOk, Except.toBool] at h3
      | ok v3 =>
        cases e4 : getInt d "rawLight" with
        | error e => rw [e4] at h4; simp [Except.isOk, Except.toBool] at h4
        | ok v4 =>
          obtain ⟨row, pubs, hrp⟩ :
              ∃ row pubs, classifyRow ctx
                { ts := ts, suhu := v1, lembap := v2, light := v3,
                  rawLight := v4,
                  status_esp := (d.lookup "label").getD (.str "N/A"),
                  prediksi_server := "N/A", perintah_terkirim := "N/A",
                  prediksi_server_raw := "N/A" } = (row, pubs) := ⟨_, _, rfl⟩
          exact ⟨row, pubs, by simp only [mkRow, e1, e2, e3, e4, hrp]⟩

lemma sensorRecord_eq (ctx : Ctx) (d : List (String × JVal)) (ts : ℚ) (row : Row)
    (pubs : List String) (hmk : mkRow ctx d ts = .ok (row, pubs)) :
    sensorRecord ctx (.sensor d ts) = some row := by
  simp [sensorRecord, hmk]

lemma drainAux_order (ctx : Ctx) (items : List Item) :
    ∀ (s : SState) (upd : Bool), (∀ it ∈ items, it.parses = true) →
      s.logs.length + items.countP Item.isSensor ≤ 5000 →
      ∃ s2 u, drainAux ctx s upd items = .done s2 u ∧
        s2.logs = s.logs ++ items.filterMap (sensorRecord ctx) := by
  induction items with
  | nil => intro s upd _ _; exact ⟨s, upd, rfl, by simp⟩
  | cons it rest ih =>
    intro s upd hp hlen
    have hprest : ∀ it2 ∈ rest, it2.parses = true :=
      fun it2 hm => hp it2 (List.mem_cons_of_mem _ hm)
    cases it with
    | status c t =>
      obtain ⟨s2, u, heq, hlogs⟩ := ih { s with lastStatus := some c } (upd || true) hprest
        (by simpa [List.countP_cons, Item.isSensor] using hlen)
      exact ⟨s2, u, by simpa [drainAux, processItem] using heq,
        by simpa [sensorRecord] using hlogs⟩
    | error m t =>
      obtain ⟨s2, u, heq, hlogs⟩ :=
        ih { s with shownErrors := s.shownErrors ++ [m] } (upd || true) hprest
          (by simpa [List.countP_cons, Item.isSensor] using hlen)
      exact ⟨s2, u, by simpa [drainAux, processItem] using heq,
        by simpa [sensorRecord] using hlogs⟩
    | raw p t =>
      obtain ⟨s2, u, heq, hlogs⟩ := ih s (upd || false) hprest
        (by simpa [List.countP_cons, Item.isSensor] using hlen)
      exact ⟨s2, u, by simpa [drainAux, processItem] using heq,
        by simpa [sensorRecord] using hlogs⟩
    | sensor d t =>
      obtain ⟨row, pubs, hmk⟩ :=
        mkRow_isOk_of_parses ctx d t (hp _ (List.mem_cons_self _ _))
      have hcnt : s.logs.length + (1 + rest.countP Item.isSensor) ≤ 5000 := by
        simpa [List.countP_cons, Item.isSensor, Nat.add_comm] using hlen
      have happ : appendTrim 5000 s.logs row = s.logs ++ [row] :=
        appendTrim_eq_append 5000 s.logs row (by omega)
      have hlen2 : (applySensor s row pubs).logs.length + rest.countP Item.isSensor ≤ 5000 := by
        simp only [applySensor, happ]
        simp
        omega
      obtain ⟨s2, u, heq, hlogs⟩ := ih (applySensor s row pubs) (upd || true) hprest hlen2
      refine ⟨s2, u, by simpa [drainAux, processItem, hmk] using heq, ?_⟩
      rw [hlogs]
      simp only [applySensor, happ]
      rw [List.filterMap_cons, sensorRecord_eq ctx d t row pubs hmk]
      simp

/-- Claim C7: within one drain, records are appended in exactly the
order the items sit in the queue (arrival order): the History Log
after `process_queue` is the old log extended by each sensor item's
record, in queue order — independent of the items' timestamps (the
statement holds for each item's `ts` field, so out-of-timestamp-order
arrivals keep push order; the log is never re-sorted).  Stated under
the hypotheses that every item parses (no exception aborts the drain)
and that the drain stays within the log capacity (no eviction). -/
theorem c7_log_order_is_arrival_order
    (ctx : Ctx) (csvOk : Bool) (s : SState) (items : List Item)
    (hp : ∀ it ∈ items, it.parses = true)
    (hlen : s.logs.length + items.countP Item.isSensor ≤ 5000) :
    logsOf (process_queue ctx csvOk s items)
      = s.logs ++ items.filterMap (sensorRecord ctx) := by
  obtain ⟨s2, u, heq, hlogs⟩ := drainAux_order ctx items s false hp hlen
  rw [process_queue_logs, heq]
  exact hlogs

/-- Witness for C7 at a concrete input: two sensor events pushed with
timestamps out of natural order (100 then 50); the log order matches
push order, not timestamp order. -/
theorem c7_witness :
    logsOf (process_queue ctxT true emptyState
        [Item.sensor dFull 100, Item.sensor dOnlySuhu 50])
      = emptyState.logs ++ [Item.sensor dFull 100, Item.sensor dOnlySuhu 50].filterMap
          (sensorRecord ctxT) ∧
    (logsOf (process_queue ctxT true emptyState
        [Item.sensor dFull 100, Item.sensor dOnlySuhu 50])).map Row.ts = [100, 50] :=
  ⟨c7_log_order_is_arrival_order ctxT true emptyState
      [Item.sensor dFull 100, Item.sensor dOnlySuhu 50] (by decide) (by decide),
   by decide⟩

/-! ## Claim C8 -/

lemma drainAux_updated (ctx : Ctx) (items : List Item) :
    ∀ (s : SState) (upd : Bool), (∀ it ∈ items, it.parses = true) →
      ∃ s2, drainAux ctx s upd items
        = .done s2 (upd || items.any (fun it => !it.isRaw)) := by
  induction items with
  | nil => intro s upd _; exact ⟨s, by simp [drainAux]⟩
  | cons it rest ih =>
    intro s upd hp
    have hprest : ∀ it2 ∈ rest, it2.parses = true :=
      fun it2 hm => hp it2 (List.mem_cons_of_mem _ hm)
    cases it with
    | status c t =>
      obtain ⟨s2, heq⟩ := ih { s with lastStatus := some c } (upd || true) hprest
      refine ⟨s2, ?_⟩
      have : drainAux ctx s upd (Item.status c t :: rest)
          = drainAux ctx { s with lastStatus := some c } (upd || true) rest := by
        simp [drainAux, processItem]
      rw [this, heq]
      simp [Item.isRaw, Bool.or_assoc]
    | error m t =>
      obtain ⟨s2, heq⟩ := ih { s with shownErrors := s.shownErrors ++ [m] } (upd || true) hprest
      refine ⟨s2, ?_⟩
      have : drainAux ctx s upd (Item.error m t :: rest)
          = drainAux ctx { s with shownErrors := s.shownErrors ++ [m] } (upd || true) rest := by
        simp [drainAux, processItem]
      rw [this, heq]
      simp [Item.isRaw, Bool.or_assoc]
    | raw p t =>
      obtain ⟨s2, heq⟩ := ih s (upd || false) hprest
      refine ⟨s2, ?_⟩
      have : drainAux ctx s upd (Item.raw p t :: rest)
          = drainAux ctx s (upd || false) rest := by
        simp [drainAux, processItem]
      rw [this, heq]
      simp [Item.isRaw]
    | sensor d t =>
      obtain ⟨row, pubs, hmk⟩ :=
        mkRow_isOk_of_parses ctx d t (hp _ (List.mem_cons_self _ _))
      obtain ⟨s2, heq⟩ := ih (applySensor s row pubs) (upd || true) hprest
      refine ⟨s2, ?_⟩
      have : drainAux ctx s upd (Item.sensor d t :: rest)
          = drainAux ctx (applySensor s row pubs) (upd || true) rest := by
        simp [drainAux, processItem, hmk]
      rw [this, heq]
      simp [Item.isRaw, Bool.or_assoc]

/-- Claim C8 counterexample: draining a queue holding only a `status`
item returns `true` although no record was appended (the log stays
empty) — refuting "returns true if and only if at least one LogRecord
was appended". -/
theorem c8_cex :
    process_queue ctxT true emptyState [Item.status true 0]
      = .ok { emptyState with lastStatus := some true } true ∧
    (stateOf (process_queue ctxT true emptyState [Item.status true 0])).logs = [] := by
  constructor
  · decide
  · decide

/-- Claim C8 (amended): `process_queue` returns true iff the drain saw
at least one item that is not a `raw` item — `status` and `error`
items also set the flag, not only sensor appends; a drain of an empty
queue (or of only raw items) returns false.  In particular an appended
record still implies a true return, but not conversely. -/
theorem c8_return_value
    (ctx : Ctx) (csvOk : Bool) (s : SState) (items : List Item)
    (hp : ∀ it ∈ items, it.parses = true) :
    (∃ s2, process_queue ctx csvOk s items
      = .ok s2 (items.any (fun it => !it.isRaw))) ∧
    process_queue ctx csvOk s [] = .ok s false := by
  constructor
  · obtain ⟨s2, heq⟩ := drainAux_updated ctx items s false hp
    refine ⟨csvStep csvOk s2 (items.any (fun it => !it.isRaw)), ?_⟩
    unfold process_queue
    rw [heq]
    simp
  · rfl

/-- Witness for C8's amended theorem at a concrete input: a status-only
drain returns true with nothing appended. -/
theorem c8_witness :
    (∃ s2, process_queue ctxT true emptyState [Item.status true 0]
      = .ok s2 ([Item.status true 0].any (fun it => !it.isRaw))) ∧
    process_queue ctxT true emptyState [] = .ok emptyState false :=
  c8_return_value ctxT true emptyState [Item.status true 0] (by decide)

/-! ## Claim C9 -/

/-- Claim C9: after a completed drain that updated state and left a
nonempty log, the whole current History Log is serialized to the CSV
mirror, overwriting whatever file was there before (the new content
depends only on the final log), with columns ts, suhu, lembap, light,
rawLight and the derived label; a failing write is swallowed and the
in-memory state (log, snapshot) and the return value are exactly the
same as on a successful write — only the file differs. -/
theorem c9_csv_snapshot
    (ctx : Ctx) (s : SState) (items : List Item) (sd : SState)
    (h : drainAux ctx s false items = .done sd true)
    (hne : sd.logs ≠ []) :
    process_queue ctx true s items
      = .ok { sd with csv := some (sd.logs.map Row.toCsv) } true ∧
    process_queue ctx false s items = .ok sd true ∧
    ({ sd with csv := some (sd.logs.map Row.toCsv) } : SState).logs = sd.logs ∧
    ({ sd with csv := some (sd.logs.map Row.toCsv) } : SState).last = sd.last ∧
    (∀ r : Row, (Row.toCsv r).ts = r.ts ∧ (Row.toCsv r).suhu = r.suhu ∧
      (Row.toCsv r).lembap = r.lembap ∧ (Row.toCsv r).light = r.light ∧
      (Row.toCsv r).rawLight = r.rawLight ∧
      (Row.toCsv r).prediksi_server = r.prediksi_server) := by
  have hemp : sd.logs.isEmpty = false := by
    cases hl : sd.logs with
    | nil => exact absurd hl hne
    | cons a l => rfl
  refine ⟨?_, ?_, rfl, rfl, fun r => ⟨rfl, rfl, rfl, rfl, rfl, rfl⟩⟩
  · unfold process_queue
    rw [h]
    simp [csvStep, hemp]
  · unfold process_queue
    rw [h]
    simp [csvStep, hemp]

/-- The drained state for the C9 witness: one sensor item processed
with no model loaded; with a failing CSV write the final state equals
the drained state itself. -/
def sdW : SState := stateOf (process_queue ctxT false emptyState [Item.sensor dFull 7])

/-- Witness for C9 at a concrete input. -/
theorem c9_witness :
    process_queue ctxT true emptyState [Item.sensor dFull 7]
      = .ok { sdW with csv := some (sdW.logs.map Row.toCsv) } true ∧
    process_queue ctxT false emptyState [Item.sensor dFull 7] = .ok sdW true ∧
    ({ sdW with csv := some (sdW.logs.map Row.toCsv) } : SState).logs = sdW.logs ∧
    ({ sdW with csv := some (sdW.logs.map Row.toCsv) } : SState).last = sdW.last ∧
    (∀ r : Row, (Row.toCsv r).ts = r.ts ∧ (Row.toCsv r).suhu = r.suhu ∧
      (Row.toCsv r).lembap = r.lembap ∧ (Row.toCsv r).light = r.light ∧
      (Row.toCsv r).rawLight = r.rawLight ∧
      (Row.toCsv r).prediksi_server = r.prediksi_server) :=
  c9_csv_snapshot ctxT emptyState [Item.sensor dFull 7] sdW (by decide) (by decide)

/-! ## Claim C10 -/

/-- The snapshot invariant: the "current reading" is the last record
of the History Log, which is nonempty. -/
def lastInv (s : SState) : Prop :=
  s.last = s.logs.getLast? ∧ s.logs ≠ []

lemma applySensor_lastInv (s : SState) (row : Row) (pubs : List String) :
    lastInv (applySensor s row pubs) := by
  have hg : (appendTrim 5000 s.logs row).getLast? = some row :=
    appendTrim_getLast 5000 s.logs row (by norm_num)
  constructor
  · simp [applySensor, hg]
  · intro hnil
    have hnil2 : appendTrim 5000 s.logs row = [] := hnil
    rw [hnil2] at hg
    simp at hg

lemma drainAux_lastInv (ctx : Ctx) (items : List Item) :
    ∀ (s : SState) (upd : Bool), (∀ it ∈ items, it.parses = true) →
      ((∃ it ∈ items, it.isSensor = true) ∨ lastInv s) →
      ∃ s2 u, drainAux ctx s upd items = .done s2 u ∧ lastInv s2 := by
  induction items with
  | nil =>
    intro s upd _ hstart
    rcases hstart with ⟨it, hm, _⟩ | hinv
    · exact absurd hm (List.not_mem_nil it)
    · exact ⟨s, upd, rfl, hinv⟩
  | cons it rest ih =>
    intro s upd hp hstart
    have hprest : ∀ it2 ∈ rest, it2.parses = true :=
      fun it2 hm => hp it2 (List.mem_cons_of_mem _ hm)
    cases it with
    | sensor d t =>
      obtain ⟨row, pubs, hmk⟩ :=
        mkRow_isOk_of_parses ctx d t (hp _ (List.mem_cons_self _ _))
      obtain ⟨s2, u, heq, hinv⟩ := ih (applySensor s row pubs) (upd || true) hprest
        (Or.inr (applySensor_lastInv s row pubs))
      exact ⟨s2, u, by simpa [drainAux, processItem, hmk] using heq, hinv⟩
    | status c t =>
      have hnext : (∃ it2 ∈ rest, it2.isSensor = true) ∨ lastInv { s with lastStatus := some c } := by
        rcases hstart with ⟨it2, hm, hsens⟩ | hinv
        · rcases List.mem_cons.mp hm with heq2 | hm2
          · rw [heq2] at hsens; simp [Item.isSensor] at hsens
          · exact Or.inl ⟨it2, hm2, hsens⟩
        · exact Or.inr hinv
      obtain ⟨s2, u, heq, hinv⟩ := ih { s with lastStatus := some c } (upd || true) hprest hnext
      exact ⟨s2, u, by simpa [drainAux, processItem] using heq, hinv⟩
    | error m t =>
      have hnext : (∃ it2 ∈ rest, it2.isSensor = true)
          ∨ lastInv { s with shownErrors := s.shownErrors ++ [m] } := by
        rcases hstart with ⟨it2, hm, hsens⟩ | hinv
        · rcases List.mem_cons.mp hm with heq2 | hm2
          · rw [heq2] at hsens; simp [Item.isSensor] at hsens
          · exact Or.inl ⟨it2, hm2, hsens⟩
        · exact Or.inr hinv
      obtain ⟨s2, u, heq, hinv⟩ :=
        ih { s with shownErrors := s.shownErrors ++ [m] } (upd || true) hprest hnext
      exact ⟨s2, u, by simpa [drainAux, processItem] using heq, hinv⟩
    | raw p t =>
      have hnext : (∃ it2 ∈ rest, it2.isSensor = true) ∨ lastInv s := by
        rcases hstart with ⟨it2, hm, hsens⟩ | hinv
        · rcases List.mem_cons.mp hm with heq2 | hm2
          · rw [heq2] at hsens; simp [Item.isSensor] at hsens
          · exact Or.inl ⟨it2, hm2, hsens⟩
        · exact Or.inr hinv
      obtain ⟨s2, u, heq, hinv⟩ := ih s (upd || false) hprest hnext
      exact ⟨s2, u, by simpa [drainAux, processItem] using heq, hinv⟩

/-- Claim C10: after a completed `process_queue` call that processed
at least one sensor item (with every item parsing), the "current
reading" snapshot equals the last record of the History Log, which is
nonempty; and eviction can never remove the record the snapshot points
to, because append-then-trim always keeps the just-appended newest
record as the last element. -/
theorem c10_snapshot_is_last_record
    (ctx : Ctx) (csvOk : Bool) (s : SState) (items : List Item) (s2 : SState) (u : Bool)
    (hp : ∀ it ∈ items, it.parses = true)
    (hsens : ∃ it ∈ items, it.isSensor = true)
    (h : process_queue ctx csvOk s items = .ok s2 u) :
    s2.last = s2.logs.getLast? ∧ s2.logs ≠ [] ∧
    (∀ (l : List Row) (r : Row), (appendTrim 5000 l r).getLast? = some r) := by
  obtain ⟨sd, ud, heq, hinv⟩ := drainAux_lastInv ctx items s false hp (Or.inl hsens)
  have h2 : process_queue ctx csvOk s items = .ok (csvStep csvOk sd ud) ud := by
    unfold process_queue
    rw [heq]
  rw [h2] at h
  obtain ⟨hs2, hu⟩ : csvStep csvOk sd ud = s2 ∧ ud = u := by
    cases h
    exact ⟨rfl, rfl⟩
  refine ⟨?_, ?_, fun l r => appendTrim_getLast 5000 l r (by norm_num)⟩
  · rw [← hs2, csvStep_last, csvStep_logs]
    exact hinv.1
  · rw [← hs2, csvStep_logs]
    exact hinv.2

/-- Witness for C10 at a concrete input. -/
theorem c10_witness :
    sdW.last = sdW.logs.getLast? ∧ sdW.logs ≠ [] ∧
    (∀ (l : List Row) (r : Row), (appendTrim 5000 l r).getLast? = some r) :=
  c10_snapshot_is_last_record ctxT false emptyState [Item.sensor dFull 7] sdW true
    (by decide) ⟨Item.sensor dFull 7, by simp, rfl⟩ (by decide)
